import Mathlib

/-!
Verification of the error-handling module of the `obj-rs` repository
(`src/error.rs`), as a shallow embedding in Lean 4.

External error types (`std::io::Error`, `std::num::ParseIntError`,
`std::num::ParseFloatError`) are opaque to this crate: the code only ever
stores them, returns them from `cause`, and delegates to their `Display`.
They are therefore modelled as opaque values carrying their rendered text.
-/

namespace ObjRs

/-- Model of `std::io::Error`: an opaque external error value, observed by
this crate only through its `Display` rendering. -/
structure IoError where
  display : String
  deriving DecidableEq

/-- Model of `std::num::ParseIntError`: opaque external error value with a
`Display` rendering. -/
structure ParseIntError where
  display : String
  deriving DecidableEq

/-- Model of `std::num::ParseFloatError`: opaque external error value with a
`Display` rendering. -/
structure ParseFloatError where
  display : String
  deriving DecidableEq

/-- `Display` of the external `io::Error` is its own rendered text. -/
def IoError.fmt (e : IoError) : String := e.display

/-- `Display` of the external `ParseIntError` is its own rendered text. -/
def ParseIntError.fmt (e : ParseIntError) : String := e.display

/-- `Display` of the external `ParseFloatError` is its own rendered text. -/
def ParseFloatError.fmt (e : ParseFloatError) : String := e.display

/-- `LoadErrorKind` from `src/error.rs`: a list specifying general
categories of load error. Five variants. -/
inductive LoadErrorKind where
  | UnexpectedStatement
  | WrongNumberOfArguments
  | WrongTypeOfArguments
  | UntriangulatedModel
  | InsufficientData
  deriving DecidableEq

/-- The derived `Clone`/`Copy` on `LoadErrorKind` (a fieldless enum):
copying a value yields the same variant. -/
def LoadErrorKind.clone : LoadErrorKind → LoadErrorKind
  | .UnexpectedStatement => .UnexpectedStatement
  | .WrongNumberOfArguments => .WrongNumberOfArguments
  | .WrongTypeOfArguments => .WrongTypeOfArguments
  | .UntriangulatedModel => .UntriangulatedModel
  | .InsufficientData => .InsufficientData

/-- `LoadError` from `src/error.rs`: a kind together with a static message.
The source derives `PartialEq, Eq, Clone, Debug`; the derived equality is
structural (field-wise), which is Lean's structural equality here. -/
structure LoadError where
  kind : LoadErrorKind
  message : String
  deriving DecidableEq

/-- `LoadError::new(kind, message)` from `src/error.rs`. -/
def LoadError.new (kind : LoadErrorKind) (message : String) : LoadError :=
  { kind := kind, message := message }

/-- The derived `Clone` on `LoadError`: field-wise clone (the kind is
copied, the static string is copied). -/
def LoadError.clone (le : LoadError) : LoadError :=
  { kind := le.kind.clone, message := le.message }

/-- The derive attribute on `LoadError` in `src/error.rs`, as written:
`#[derive(PartialEq, Eq, Clone, Debug)]`. -/
def loadErrorDerivedTraits : List String :=
  ["PartialEq", "Eq", "Clone", "Debug"]

/-- `impl fmt::Display for LoadError` from `src/error.rs`: picks the fixed
category phrase for the kind, then writes `"<phrase>: <message>"`. -/
def LoadError.fmt (le : LoadError) : String :=
  let msg := match le.kind with
    | .UnexpectedStatement => "Met unexpected statement"
    | .WrongNumberOfArguments => "Received wrong number of arguments"
    | .WrongTypeOfArguments => "Received unexpected type of arguments"
    | .UntriangulatedModel =>
        "Model should be triangulated first to be loaded properly"
    | .InsufficientData => "Model cannot be transformed into requested form"
  msg ++ ": " ++ le.message

/-- `ObjError` from `src/error.rs`: the error type for loading of the `obj`
file, a tagged union of four causes. -/
inductive ObjError where
  | Io (e : IoError)
  | ParseInt (e : ParseIntError)
  | ParseFloat (e : ParseFloatError)
  | Load (e : LoadError)
  deriving DecidableEq

/-- `From<io::Error> for ObjError`, generated by the `implmnt!` invocation
`implmnt!(Io, io::Error)`. -/
def ObjError.fromIoError (e : IoError) : ObjError := ObjError.Io e

/-- `From<ParseIntError> for ObjError`, generated by
`implmnt!(ParseInt, ParseIntError)`. -/
def ObjError.fromParseIntError (e : ParseIntError) : ObjError :=
  ObjError.ParseInt e

/-- `From<ParseFloatError> for ObjError`, generated by
`implmnt!(ParseFloat, ParseFloatError)`. -/
def ObjError.fromParseFloatError (e : ParseFloatError) : ObjError :=
  ObjError.ParseFloat e

/-- `From<LoadError> for ObjError`, generated by
`implmnt!(Load, LoadError)`. -/
def ObjError.fromLoadError (e : LoadError) : ObjError := ObjError.Load e

/-- `impl fmt::Display for ObjError`: matches on the variant and delegates
to the wrapped cause's own `fmt`. -/
def ObjError.fmt : ObjError → String
  | .Io e => e.fmt
  | .ParseInt e => e.fmt
  | .ParseFloat e => e.fmt
  | .Load e => e.fmt

/-- The possible wrapped causes an `ObjError` can expose through
`Error::cause` (`&dyn Error` in the source). -/
inductive ErrorCause where
  | ioCause (e : IoError)
  | parseIntCause (e : ParseIntError)
  | parseFloatCause (e : ParseFloatError)
  | loadCause (e : LoadError)
  deriving DecidableEq

/-- `impl Error for ObjError`: `cause` matches on the variant and returns
`Some` of a reference to the wrapped error in every arm. -/
def ObjError.cause : ObjError → Option ErrorCause
  | .Io err => some (.ioCause err)
  | .ParseInt err => some (.parseIntCause err)
  | .ParseFloat err => some (.parseFloatCause err)
  | .Load err => some (.loadCause err)

/-- `impl Error for LoadError {}` provides no body, so `cause` is the
trait's default, which returns `None`. -/
def LoadError.cause (_ : LoadError) : Option ErrorCause := none

/-- Matching an `ObjError` against the `Io` variant: the wrapped
`io::Error` when the variant is `Io`, nothing otherwise. -/
def ObjError.ioPayload : ObjError → Option IoError
  | .Io e => some e
  | _ => none

/-- Matching an `ObjError` against the `ParseInt` variant. -/
def ObjError.parseIntPayload : ObjError → Option ParseIntError
  | .ParseInt e => some e
  | _ => none

/-- Matching an `ObjError` against the `ParseFloat` variant. -/
def ObjError.parseFloatPayload : ObjError → Option ParseFloatError
  | .ParseFloat e => some e
  | _ => none

/-- Matching an `ObjError` against the `Load` variant. -/
def ObjError.loadPayload : ObjError → Option LoadError
  | .Load e => some e
  | _ => none

/-- The variant tag of an `ObjError`. -/
inductive ObjErrorTag where
  | ioTag
  | parseIntTag
  | parseFloatTag
  | loadTag
  deriving DecidableEq

/-- Which of the four variants an `ObjError` value carries. -/
def ObjError.tag : ObjError → ObjErrorTag
  | .Io _ => .ioTag
  | .ParseInt _ => .parseIntTag
  | .ParseFloat _ => .parseFloatTag
  | .Load _ => .loadTag

/-- `ObjResult<T>` from `src/error.rs`: `Result<T, ObjError>`. -/
abbrev ObjResult (T : Type) : Type := Except ObjError T

/-- The `make_error!(kind, message)` shorthand from `src/error.rs`: it
expands to `return Err(From::from(LoadError::new(kind, message)))`, i.e. it
builds the `LoadError`, converts it via the `From` conversion, and returns
it as the error result of the enclosing operation. -/
def make_error (α : Type) (kind : LoadErrorKind) (message : String) :
    ObjResult α :=
  Except.error (ObjError.fromLoadError (LoadError.new kind message))

/-- Helper: the derived structural equality on `LoadError` holds exactly
when both fields agree. -/
theorem LoadError.eq_iff (a b : LoadError) :
    a = b ↔ a.kind = b.kind ∧ a.message = b.message := by
  constructor
  · intro h; subst h; exact ⟨rfl, rfl⟩
  · intro ⟨hk, hm⟩
    cases a; cases b
    simp_all

/-- C1: Rendering `LoadError::new(k, m)` via `Display` produces exactly the
fixed category phrase for `k`, followed by `": "`, followed by `m`, for each
of the five kinds; and rendering is deterministic — rendering the same value
twice yields identical text. -/
theorem c1_loadError_display (m : String) :
    (LoadError.new .UnexpectedStatement m).fmt
        = "Met unexpected statement" ++ ": " ++ m ∧
    (LoadError.new .WrongNumberOfArguments m).fmt
        = "Received wrong number of arguments" ++ ": " ++ m ∧
    (LoadError.new .WrongTypeOfArguments m).fmt
        = "Received unexpected type of arguments" ++ ": " ++ m ∧
    (LoadError.new .UntriangulatedModel m).fmt
        = "Model should be triangulated first to be loaded properly" ++ ": " ++ m ∧
    (LoadError.new .InsufficientData m).fmt
        = "Model cannot be transformed into requested form" ++ ": " ++ m ∧
    ∀ k : LoadErrorKind, (LoadError.new k m).fmt = (LoadError.new k m).fmt := by
  refine ⟨rfl, rfl, rfl, rfl, rfl, fun _ => rfl⟩

/-- C2: Each of the four `From` conversions into `ObjError` is a lossless
round-trip: converting a cause and then matching the resulting variant
yields back exactly the wrapped value, for every cause value. -/
theorem c2_from_roundtrip :
    (∀ e : IoError, ObjError.fromIoError e = ObjError.Io e ∧
        (ObjError.fromIoError e).ioPayload = some e) ∧
    (∀ e : ParseIntError, ObjError.fromParseIntError e = ObjError.ParseInt e ∧
        (ObjError.fromParseIntError e).parseIntPayload = some e) ∧
    (∀ e : ParseFloatError, ObjError.fromParseFloatError e = ObjError.ParseFloat e ∧
        (ObjError.fromParseFloatError e).parseFloatPayload = some e) ∧
    (∀ le : LoadError, ObjError.fromLoadError le = ObjError.Load le ∧
        (ObjError.fromLoadError le).loadPayload = some le) := by
  exact ⟨fun e => ⟨rfl, rfl⟩, fun e => ⟨rfl, rfl⟩,
    fun e => ⟨rfl, rfl⟩, fun le => ⟨rfl, rfl⟩⟩

/-- C3: `Display` of an `ObjError` delegates entirely to the wrapped
cause's own `Display` in every variant, adding no text of its own; in
particular a converted `ParseFloatError` lands in the `ParseFloat` variant
and renders exactly the underlying message. -/
theorem c3_display_delegates :
    (∀ e : IoError, (ObjError.Io e).fmt = e.fmt) ∧
    (∀ e : ParseIntError, (ObjError.ParseInt e).fmt = e.fmt) ∧
    (∀ e : ParseFloatError, (ObjError.ParseFloat e).fmt = e.fmt) ∧
    (∀ le : LoadError, (ObjError.Load le).fmt = le.fmt) ∧
    (∀ pf : ParseFloatError, (ObjError.fromParseFloatError pf).tag = .parseFloatTag ∧
        (ObjError.fromParseFloatError pf).fmt = pf.display) := by
  exact ⟨fun _ => rfl, fun _ => rfl, fun _ => rfl, fun _ => rfl,
    fun _ => ⟨rfl, rfl⟩⟩

/-- C4: `Error::cause` on `ObjError` returns `Some` of the wrapped cause
for every variant — never `None` — and a wrapped `LoadError` reports no
further cause, so the chain terminates one level after `ObjError`. -/
theorem c4_cause_always_some :
    (∀ e : ObjError, ∃ c : ErrorCause, e.cause = some c) ∧
    (∀ err : IoError, (ObjError.Io err).cause = some (.ioCause err)) ∧
    (∀ err : ParseIntError, (ObjError.ParseInt err).cause = some (.parseIntCause err)) ∧
    (∀ err : ParseFloatError, (ObjError.ParseFloat err).cause = some (.parseFloatCause err)) ∧
    (∀ err : LoadError, (ObjError.Load err).cause = some (.loadCause err)) ∧
    (∀ le : LoadError, le.cause = none) := by
  refine ⟨fun e => ?_, fun _ => rfl, fun _ => rfl, fun _ => rfl, fun _ => rfl,
    fun _ => rfl⟩
  cases e <;> exact ⟨_, rfl⟩

/-- C5: Building `LoadError::new(UntriangulatedModel, "compute_normals
requires triangles")`, converting it to `ObjError` via `From`, and rendering
it via `Display` yields exactly the expected text. -/
theorem c5_scenario_untriangulated :
    (ObjError.fromLoadError
        (LoadError.new .UntriangulatedModel "compute_normals requires triangles")).fmt
      = "Model should be triangulated first to be loaded properly: compute_normals requires triangles" := by
  rfl

/-- C6: Two `LoadError` values are equal iff both their kind and their
message agree; changing either component breaks equality, witnessed by the
`"face"` / `"vertex"` pair. -/
theorem c6_loadError_eq_structural :
    (∀ a b : LoadError, a = b ↔ a.kind = b.kind ∧ a.message = b.message) ∧
    LoadError.new .WrongNumberOfArguments "face"
      ≠ LoadError.new .WrongNumberOfArguments "vertex" := by
  refine ⟨LoadError.eq_iff, ?_⟩
  intro h
  have := (LoadError.eq_iff _ _).mp h
  simp [LoadError.new] at this

/-- C7 counterexample: the claim asserts a structural order comparison is
defined on `LoadError`, but the source's derive attribute on `LoadError`
lists only `PartialEq, Eq, Clone, Debug`; neither `PartialOrd` nor `Ord`
is derived (and no ordering is implemented anywhere else in the file). -/
theorem c7_no_ordering_defined :
    "PartialOrd" ∉ loadErrorDerivedTraits ∧ "Ord" ∉ loadErrorDerivedTraits := by
  decide

/-- C7 (amended): `LoadError` admits structural equality determined by the
pair (kind, message) — the source derives `PartialEq` and `Eq` — but no
ordering is defined: neither `PartialOrd` nor `Ord` is among the derived
traits. -/
theorem c7_equality_but_no_order :
    (∀ a b : LoadError, a = b ↔ a.kind = b.kind ∧ a.message = b.message) ∧
    "PartialEq" ∈ loadErrorDerivedTraits ∧
    "Eq" ∈ loadErrorDerivedTraits ∧
    "PartialOrd" ∉ loadErrorDerivedTraits ∧
    "Ord" ∉ loadErrorDerivedTraits := by
  exact ⟨LoadError.eq_iff, by decide, by decide, by decide, by decide⟩

/-- C8: `ObjError` is a disjoint tagged union of exactly four variants:
every value carries exactly one of the four tags, the tag determines which
cause type is present, and no value is representable as two different
variants at once. -/
theorem c8_disjoint_union :
    (∀ e : ObjError,
      (e.tag = .ioTag ↔ ∃ x, e = ObjError.Io x) ∧
      (e.tag = .parseIntTag ↔ ∃ x, e = ObjError.ParseInt x) ∧
      (e.tag = .parseFloatTag ↔ ∃ x, e = ObjError.ParseFloat x) ∧
      (e.tag = .loadTag ↔ ∃ x, e = ObjError.Load x)) ∧
    (∀ (x : IoError) (y : ParseIntError), ObjError.Io x ≠ ObjError.ParseInt y) ∧
    (∀ (x : IoError) (y : ParseFloatError), ObjError.Io x ≠ ObjError.ParseFloat y) ∧
    (∀ (x : IoError) (y : LoadError), ObjError.Io x ≠ ObjError.Load y) ∧
    (∀ (x : ParseIntError) (y : ParseFloatError),
        ObjError.ParseInt x ≠ ObjError.ParseFloat y) ∧
    (∀ (x : ParseIntError) (y : LoadError), ObjError.ParseInt x ≠ ObjError.Load y) ∧
    (∀ (x : ParseFloatError) (y : LoadError), ObjError.ParseFloat x ≠ ObjError.Load y) := by
  refine ⟨fun e => ?_, ?_, ?_, ?_, ?_, ?_, ?_⟩
  · cases e <;> simp [ObjError.tag]
  all_goals intro x y h; cases h

/-- C9: `make_error!(kind, message)` aborts with exactly
`Err(ObjError::Load(LoadError::new(kind, message)))` — the shorthand equals
constructing the `LoadError`, converting it via `From`, and returning it as
the error result, for every kind and message. -/
theorem c9_make_error_expansion (α : Type) (kind : LoadErrorKind) (message : String) :
    make_error α kind message
      = Except.error (ObjError.Load (LoadError.new kind message)) := by
  rfl

/-- C10: Cloning preserves structure: for every `LoadError`, the clone is
equal to the original (same kind, same message), and copying any
`LoadErrorKind` leaves the variant unchanged. -/
theorem c10_clone_preserves :
    (∀ le : LoadError, le.clone = le) ∧
    (∀ le : LoadError, le.clone.kind = le.kind ∧ le.clone.message = le.message) ∧
    (∀ k : LoadErrorKind, k.clone = k) := by
  have hk : ∀ k : LoadErrorKind, k.clone = k := by
    intro k; cases k <;> rfl
  refine ⟨fun le => ?_, fun le => ?_, hk⟩
  · cases le with
    | mk kind message => simp [LoadError.clone, hk]
  · cases le with
    | mk kind message => simp [LoadError.clone, hk]

end ObjRs
